import Mathlib

/-!
Verification model for the `discord-ai-bot` repository.

Strings are modelled as lists of Unicode scalar values (`List Char`).
The Python string primitives `str.lower` and `str.isalnum` are modelled on
the ASCII range, where they agree with the definitions below; inputs in the
theorems below stay in that range.
-/

namespace GasTown

/-- Strings of the Python program, modelled as lists of characters. -/
abbrev Str := List Char

/-- The characters of a Lean string literal, used to write down concrete strings. -/
def str (s : String) : Str := s.data

/-- Model of Python `str.lower` on one character (ASCII range): maps `A`-`Z`
to `a`-`z` and fixes everything else. -/
def pyLower (c : Char) : Char :=
  if 65 ≤ c.toNat ∧ c.toNat ≤ 90 then Char.ofNat (c.toNat + 32) else c

/-- Model of Python `str.isalnum` on one character (ASCII range): digits and
latin letters. -/
def pyIsAlnum (c : Char) : Bool :=
  (48 ≤ c.toNat && c.toNat ≤ 57) || (65 ≤ c.toNat && c.toNat ≤ 90) ||
    (97 ≤ c.toNat && c.toNat ≤ 122)

/-- `ChannelManager._sanitize_channel_name` from `channel_manager.py`:
lowercase, replace spaces with hyphens, keep only alphanumerics, hyphens and
underscores, and prepend the fixed prefix `gt-`. -/
def _sanitize_channel_name (rig_name : Str) : Str :=
  let name := rig_name.map pyLower
  let name := name.map (fun c => if c = ' ' then '-' else c)
  let name := name.filter (fun c => pyIsAlnum c || c = '-' || c = '_')
  str "gt-" ++ name

theorem toNat_ofNat_of_lt {n : Nat} (h : n < 55296) : (Char.ofNat n).toNat = n := by
  have hv : n.isValidChar := Or.inl h
  rw [Char.ofNat, dif_pos hv]
  simp [Char.ofNatAux, Char.toNat, UInt32.toNat]

/-- A character that can occur in a sanitized channel name: lowercase latin
letter, digit, hyphen or underscore. -/
def goodChar (c : Char) : Bool :=
  (97 ≤ c.toNat && c.toNat ≤ 122) || (48 ≤ c.toNat && c.toNat ≤ 57) ||
    (c = '-') || (c = '_')

/-- `s` matches the regular expression `^gt-[a-z0-9_-]*$`. -/
def matchesChannelPattern (s : Str) : Bool :=
  decide (s.take 3 = str "gt-") && (s.drop 3).all goodChar

/-! ## Formatter model (`formatter.py`)

Discord embed dicts are modelled by the `Embed` structure; a dict key that the
code may leave out (`fields` in the generic formatter, `footer` in mail) is an
`Option`.  `datetime` values are modelled by their ISO-8601 string; every
formatting function takes an extra final argument `now`, the ISO string of
`datetime.utcnow()`, so that the `timestamp or datetime.utcnow()` defaulting
is explicit. -/

/-- One element of an embed's `fields` list. -/
structure EField where
  name : Str
  value : Str
  inline : Bool
deriving DecidableEq

/-- An embed's `footer` object. -/
structure Footer where
  text : Str
deriving DecidableEq

/-- A Discord embed dict as built by `NotificationFormatter`. -/
structure Embed where
  title : Str
  description : Str
  color : Nat
  fields : Option (List EField)
  timestamp : Str
  footer : Option Footer
deriving DecidableEq

/-- The `EventType` enum of `formatter.py`. -/
inductive EventType where
  | NUDGE
  | BROADCAST
  | MAIL
  | CONVOY_UPDATE
  | ESCALATION
  | HANDOFF
  | COMPLETION
deriving DecidableEq

/-- The `NotificationFormatter.COLORS` table.  It has an entry for every
`EventType`, so the `COLORS.get(event_type, 0x5865F2)` lookup in
`format_generic` never falls back to its default. -/
def COLORS : EventType → Nat
  | .NUDGE => 0x5865F2
  | .BROADCAST => 0xFEE75C
  | .MAIL => 0x57F287
  | .CONVOY_UPDATE => 0xEB459E
  | .ESCALATION => 0xED4245
  | .HANDOFF => 0x3BA55D
  | .COMPLETION => 0x57F287

/-- Python truthiness of an optional string: `None` and `""` are falsy. -/
def truthy : Option Str → Bool
  | none => false
  | some s => !s.isEmpty

/-- Wrap a string in backticks, as the f-strings of the form
backtick-braces-value-braces-backtick in `formatter.py` do. -/
def tick (s : Str) : Str := str "`" ++ s ++ str "`"

/-- The footer text idiom used by every formatter that has a footer:
Rig-colon-space followed by the rig if `rig` is truthy, else the given
default. -/
def rigFooter (rig : Option Str) (default : Str) : Footer :=
  ⟨if truthy rig then str "Rig: " ++ rig.getD [] else default⟩

/-- `NotificationFormatter.format_nudge`. -/
def format_nudge (from_agent to_agent message : Str) (rig : Option Str)
    (timestamp : Option Str) (now : Str) : Embed :=
  let timestamp := timestamp.getD now
  { title := str "💬 Agent Nudge"
    description := message
    color := COLORS .NUDGE
    fields := some [
      { name := str "From", value := tick from_agent, inline := true },
      { name := str "To", value := tick to_agent, inline := true }]
    timestamp := timestamp
    footer := some (rigFooter rig (str "Gas Town")) }

/-- `NotificationFormatter.format_broadcast`.  `target_scope` defaults to
`"workers"` in the source; callers of the model pass it explicitly. -/
def format_broadcast (from_agent message : Str) (rig : Option Str)
    (target_scope : Str) (timestamp : Option Str) (now : Str) : Embed :=
  let timestamp := timestamp.getD now
  let scope_display :=
    if target_scope = str "workers" then str "All Workers"
    else if target_scope = str "all" then str "All Agents (including infrastructure)"
    else target_scope
  { title := str "📢 Broadcast"
    description := message
    color := COLORS .BROADCAST
    fields := some [
      { name := str "From", value := tick from_agent, inline := true },
      { name := str "Scope", value := scope_display, inline := true }]
    timestamp := timestamp
    footer := some (rigFooter rig (str "Town-wide")) }

/-- `NotificationFormatter.format_mail`.  Note: the source has no `rig`
parameter and sets no footer. -/
def format_mail (from_agent to_agent subject message : Str)
    (mail_id priority : Option Str) (timestamp : Option Str) (now : Str) : Embed :=
  let timestamp := timestamp.getD now
  let fields := [
    { name := str "From", value := tick from_agent, inline := true },
    { name := str "To", value := tick to_agent, inline := true }]
  let fields := if truthy priority then
      fields ++ [{ name := str "Priority", value := priority.getD [], inline := true }]
    else fields
  let fields := if truthy mail_id then
      fields ++ [{ name := str "Mail ID", value := tick (mail_id.getD []), inline := false }]
    else fields
  { title := str "📧 " ++ subject
    description := if message.length > 4096 then message.take 4096 else message
    color := COLORS .MAIL
    fields := some fields
    timestamp := timestamp
    footer := none }

/-! ### IEEE-754 binary64 model

`format_convoy_update` computes `int((completed / total) * 100)` and
`_create_progress_bar` computes `int((percentage / 100) * length)` with
Python floats, i.e. IEEE-754 binary64 arithmetic.  The model below represents
a positive binary64 value exactly as `m * 2 ^ e` and implements correctly
rounded (round-to-nearest, ties-to-even) division of two naturals and
multiplication by a natural, which is exactly the float behaviour for the
positive normal range used here (the operands are far from overflow and
underflow). -/

/-- Round `a / b` (with `b > 0`) to the nearest natural, ties to even. -/
def rndNat (a b : Nat) : Nat :=
  let q := a / b
  let r := a % b
  if 2 * r < b then q
  else if b < 2 * r then q + 1
  else if q % 2 = 0 then q else q + 1

/-- Fuelled floor of log base 2. -/
def lg2F : Nat → Nat → Nat
  | 0, _ => 0
  | f + 1, n => if n < 2 then 0 else 1 + lg2F f (n / 2)

/-- Floor of log base 2 (for `n ≥ 1`); 128 bits of fuel are plenty here. -/
def lg2 (n : Nat) : Nat := lg2F 128 n

/-- Fuelled search for the smallest `k` with `a * 2 ^ k ≥ b`. -/
def smallExpF : Nat → Nat → Nat → Nat
  | 0, _, _ => 0
  | f + 1, a, b => if b ≤ a then 0 else 1 + smallExpF f (2 * a) b

/-- A positive binary64 value `m * 2 ^ e`. -/
structure Fl where
  m : Nat
  e : Int
deriving DecidableEq

/-- Correctly rounded binary64 division `a / b` for `a, b ≥ 1`: normalize so
the significand has 53 bits, then round to nearest, ties to even. -/
def fdiv (a b : Nat) : Fl :=
  let e : Int := if b ≤ a then (lg2 (a / b) : Int) else -(smallExpF 1200 a b : Int)
  if e ≤ 52 then
    { m := rndNat (a * 2 ^ (52 - e).toNat) b, e := e - 52 }
  else
    { m := rndNat a (b * 2 ^ (e - 52).toNat), e := e - 52 }

/-- Correctly rounded binary64 multiplication of a float by a small natural:
the exact product is computed, then rounded back to 53 significand bits. -/
def fmulNat (x : Fl) (k : Nat) : Fl :=
  let p := x.m * k
  let s := lg2 p
  if s ≤ 52 then { m := p, e := x.e }
  else { m := rndNat p (2 ^ (s - 52)), e := x.e + (s - 52 : Nat) }

/-- Python `int()` truncation of a positive float. -/
def ftrunc (x : Fl) : Nat :=
  if 0 ≤ x.e then x.m * 2 ^ x.e.toNat else x.m / 2 ^ (-x.e).toNat

/-- The percentage computed by `format_convoy_update`:
`int((completed / total) * 100) if total > 0 else 0`, under binary64
arithmetic (`completed = 0` divides to exactly `0.0`). -/
def pyPercentage (completed total : Nat) : Nat :=
  if 0 < total then
    if completed = 0 then 0 else ftrunc (fmulNat (fdiv completed total) 100)
  else 0

/-- Decimal digit character. -/
def digitChar (d : Nat) : Char := Char.ofNat (48 + d)

/-- Fuelled decimal rendering of a natural. -/
def natToStrF : Nat → Nat → Str
  | 0, _ => []
  | f + 1, n => if n < 10 then [digitChar n] else natToStrF f (n / 10) ++ [digitChar (n % 10)]

/-- Decimal rendering of a natural number, as Python str() of an int. -/
def natToStr (n : Nat) : Str := natToStrF 64 n

/-- `NotificationFormatter._create_progress_bar` with its default
`length = 10`: `filled = int((percentage / 100) * length)` under binary64
arithmetic, then a bracketed bar of filled and empty cells. -/
def _create_progress_bar (percentage : Nat) : Str :=
  let length := 10
  let filled := if percentage = 0 then 0 else ftrunc (fmulNat (fdiv percentage 100) length)
  str "[" ++ List.replicate filled '█' ++ List.replicate (length - filled) '░' ++ str "]"

/-- `NotificationFormatter.format_convoy_update`. -/
def format_convoy_update (convoy_id convoy_name status message : Str)
    (completed total : Option Nat) (rig : Option Str)
    (timestamp : Option Str) (now : Str) : Embed :=
  let timestamp := timestamp.getD now
  let fields := [
    { name := str "Convoy ID", value := tick convoy_id, inline := true },
    { name := str "Status", value := status, inline := true }]
  let fields := match completed, total with
    | some c, some t =>
      let percentage := pyPercentage c t
      let progress_bar := _create_progress_bar percentage
      let progressValue := progress_bar ++ str " " ++ natToStr c ++ str "/" ++
        natToStr t ++ str " (" ++ natToStr percentage ++ str "%)"
      fields ++ [{ name := str "Progress", value := progressValue, inline := false }]
    | _, _ => fields
  { title := str "🚚 Convoy: " ++ convoy_name
    description := message
    color := COLORS .CONVOY_UPDATE
    fields := some fields
    timestamp := timestamp
    footer := some (rigFooter rig (str "Gas Town")) }

/-- Model of Python `str.upper` on one character (ASCII range). -/
def pyUpper (c : Char) : Char :=
  if 97 ≤ c.toNat ∧ c.toNat ≤ 122 then Char.ofNat (c.toNat - 32) else c

/-- `NotificationFormatter.format_escalation`. -/
def format_escalation (from_agent issue severity details : Str)
    (bead_id rig : Option Str) (timestamp : Option Str) (now : Str) : Embed :=
  let timestamp := timestamp.getD now
  let lowered := severity.map pyLower
  let severity_emoji :=
    if lowered = str "low" then str "ℹ️"
    else if lowered = str "medium" then str "⚠️"
    else if lowered = str "high" then str "🔴"
    else if lowered = str "critical" then str "🚨"
    else str "⚠️"
  let fields := [
    { name := str "From", value := tick from_agent, inline := true },
    { name := str "Severity", value := severity_emoji ++ str " " ++ severity.map pyUpper,
      inline := true }]
  let fields := if truthy bead_id then
      fields ++ [{ name := str "Related Bead", value := tick (bead_id.getD []), inline := false }]
    else fields
  { title := str "🚨 Escalation: " ++ issue
    description := if details.length > 4096 then details.take 4096 else details
    color := COLORS .ESCALATION
    fields := some fields
    timestamp := timestamp
    footer := some (rigFooter rig (str "Gas Town")) }

/-- `NotificationFormatter.format_handoff`. -/
def format_handoff (from_agent subject message : Str)
    (hooked_work rig : Option Str) (timestamp : Option Str) (now : Str) : Embed :=
  let timestamp := timestamp.getD now
  let fields := [{ name := str "From", value := tick from_agent, inline := true }]
  let fields := if truthy hooked_work then
      fields ++ [{ name := str "Hooked Work", value := tick (hooked_work.getD []), inline := true }]
    else fields
  { title := str "🤝 Handoff: " ++ subject
    description := if message.length > 4096 then message.take 4096 else message
    color := COLORS .HANDOFF
    fields := some fields
    timestamp := timestamp
    footer := some (rigFooter rig (str "Gas Town")) }

/-- `NotificationFormatter.format_completion`. -/
def format_completion (agent bead_id bead_title summary : Str)
    (rig : Option Str) (timestamp : Option Str) (now : Str) : Embed :=
  let timestamp := timestamp.getD now
  { title := str "✅ Completed: " ++ bead_title
    description := summary
    color := COLORS .COMPLETION
    fields := some [
      { name := str "Agent", value := tick agent, inline := true },
      { name := str "Bead ID", value := tick bead_id, inline := true }]
    timestamp := timestamp
    footer := some (rigFooter rig (str "Gas Town")) }

/-- `NotificationFormatter.format_generic`: the `fields` key is set only when
the `fields` argument is truthy (non-`None` and non-empty), and a footer is
set only when `rig` is truthy. -/
def format_generic (title message : Str) (event_type : EventType)
    (fields : Option (List EField)) (rig : Option Str)
    (timestamp : Option Str) (now : Str) : Embed :=
  let timestamp := timestamp.getD now
  { title := title
    description := message
    color := COLORS event_type
    fields := match fields with
      | some l => if l.isEmpty then none else some l
      | none => none
    timestamp := timestamp
    footer := if truthy rig then some ⟨str "Rig: " ++ rig.getD []⟩ else none }

/-! ### Dispatch by name (`format_event`)

`format_event(event_type, **kwargs)` looks the lowercased kind up in a table
and calls the chosen bound method with `**kwargs`.  Python keyword binding is
modelled explicitly: the keyword set is the (finite) set of parameter names
occurring across the formatter methods; a key bound to `some`/`none` models
its presence/absence in `kwargs`.  Calling a method raises `TypeError` when a
supplied key is not one of its parameters or when a required parameter is
missing; both are modelled as `Except.error`. -/

/-- The keyword arguments passed to `format_event`. -/
structure Kw where
  from_agent : Option Str := none
  to_agent : Option Str := none
  message : Option Str := none
  subject : Option Str := none
  mail_id : Option Str := none
  priority : Option Str := none
  rig : Option Str := none
  timestamp : Option Str := none
  target_scope : Option Str := none
  convoy_id : Option Str := none
  convoy_name : Option Str := none
  status : Option Str := none
  completed : Option Nat := none
  total : Option Nat := none
  issue : Option Str := none
  severity : Option Str := none
  details : Option Str := none
  bead_id : Option Str := none
  hooked_work : Option Str := none
  agent : Option Str := none
  bead_title : Option Str := none
  summary : Option Str := none
  title : Option Str := none
deriving DecidableEq

/-- Whether the keyword named `k` is present in `kwargs`. -/
def Kw.isSet (kw : Kw) : String → Bool
  | "from_agent" => kw.from_agent.isSome
  | "to_agent" => kw.to_agent.isSome
  | "message" => kw.message.isSome
  | "subject" => kw.subject.isSome
  | "mail_id" => kw.mail_id.isSome
  | "priority" => kw.priority.isSome
  | "rig" => kw.rig.isSome
  | "timestamp" => kw.timestamp.isSome
  | "target_scope" => kw.target_scope.isSome
  | "convoy_id" => kw.convoy_id.isSome
  | "convoy_name" => kw.convoy_name.isSome
  | "status" => kw.status.isSome
  | "completed" => kw.completed.isSome
  | "total" => kw.total.isSome
  | "issue" => kw.issue.isSome
  | "severity" => kw.severity.isSome
  | "details" => kw.details.isSome
  | "bead_id" => kw.bead_id.isSome
  | "hooked_work" => kw.hooked_work.isSome
  | "agent" => kw.agent.isSome
  | "bead_title" => kw.bead_title.isSome
  | "summary" => kw.summary.isSome
  | "title" => kw.title.isSome
  | _ => false

/-- All modelled keyword names. -/
def allKeys : List String :=
  ["from_agent", "to_agent", "message", "subject", "mail_id", "priority", "rig",
   "timestamp", "target_scope", "convoy_id", "convoy_name", "status", "completed",
   "total", "issue", "severity", "details", "bead_id", "hooked_work", "agent",
   "bead_title", "summary", "title"]

/-- `kwargs` contains a key that is not a parameter of the called method
(whose parameter names are `allowed`): Python raises `TypeError`. -/
def Kw.hasBadKey (kw : Kw) (allowed : List String) : Bool :=
  allKeys.any fun k => !(allowed.contains k) && kw.isSet k

/-- Result of a formatter call through `format_event`: a raised `TypeError`
is `Except.error`. -/
abbrev FmtResult := Except String Embed

def typeErrorUnexpected : FmtResult := Except.error "TypeError: unexpected keyword argument"

def typeErrorMissing : FmtResult := Except.error "TypeError: missing required argument"

/-- `format_nudge(**kwargs)`. -/
def callNudge (kw : Kw) (now : Str) : FmtResult :=
  if kw.hasBadKey ["from_agent", "to_agent", "message", "rig", "timestamp"] then
    typeErrorUnexpected
  else match kw.from_agent, kw.to_agent, kw.message with
    | some fa, some ta, some m => Except.ok (format_nudge fa ta m kw.rig kw.timestamp now)
    | _, _, _ => typeErrorMissing

/-- `format_broadcast(**kwargs)` (`target_scope` defaults to `"workers"`). -/
def callBroadcast (kw : Kw) (now : Str) : FmtResult :=
  if kw.hasBadKey ["from_agent", "message", "rig", "target_scope", "timestamp"] then
    typeErrorUnexpected
  else match kw.from_agent, kw.message with
    | some fa, some m =>
      Except.ok (format_broadcast fa m kw.rig (kw.target_scope.getD (str "workers"))
        kw.timestamp now)
    | _, _ => typeErrorMissing

/-- `format_mail(**kwargs)`; note `rig` is not among its parameters. -/
def callMail (kw : Kw) (now : Str) : FmtResult :=
  if kw.hasBadKey ["from_agent", "to_agent", "subject", "message", "mail_id",
      "priority", "timestamp"] then
    typeErrorUnexpected
  else match kw.from_agent, kw.to_agent, kw.subject, kw.message with
    | some fa, some ta, some su, some m =>
      Except.ok (format_mail fa ta su m kw.mail_id kw.priority kw.timestamp now)
    | _, _, _, _ => typeErrorMissing

/-- `format_convoy_update(**kwargs)`. -/
def callConvoyUpdate (kw : Kw) (now : Str) : FmtResult :=
  if kw.hasBadKey ["convoy_id", "convoy_name", "status", "message", "completed",
      "total", "rig", "timestamp"] then
    typeErrorUnexpected
  else match kw.convoy_id, kw.convoy_name, kw.status, kw.message with
    | some ci, some cn, some st, some m =>
      Except.ok (format_convoy_update ci cn st m kw.completed kw.total kw.rig
        kw.timestamp now)
    | _, _, _, _ => typeErrorMissing

/-- `format_escalation(**kwargs)`. -/
def callEscalation (kw : Kw) (now : Str) : FmtResult :=
  if kw.hasBadKey ["from_agent", "issue", "severity", "details", "bead_id",
      "rig", "timestamp"] then
    typeErrorUnexpected
  else match kw.from_agent, kw.issue, kw.severity, kw.details with
    | some fa, some i, some sv, some d =>
      Except.ok (format_escalation fa i sv d kw.bead_id kw.rig kw.timestamp now)
    | _, _, _, _ => typeErrorMissing

/-- `format_handoff(**kwargs)`. -/
def callHandoff (kw : Kw) (now : Str) : FmtResult :=
  if kw.hasBadKey ["from_agent", "subject", "message", "hooked_work", "rig",
      "timestamp"] then
    typeErrorUnexpected
  else match kw.from_agent, kw.subject, kw.message with
    | some fa, some su, some m =>
      Except.ok (format_handoff fa su m kw.hooked_work kw.rig kw.timestamp now)
    | _, _, _ => typeErrorMissing

/-- `format_completion(**kwargs)`. -/
def callCompletion (kw : Kw) (now : Str) : FmtResult :=
  if kw.hasBadKey ["agent", "bead_id", "bead_title", "summary", "rig", "timestamp"] then
    typeErrorUnexpected
  else match kw.agent, kw.bead_id, kw.bead_title, kw.summary with
    | some a, some bi, some bt, some su =>
      Except.ok (format_completion a bi bt su kw.rig kw.timestamp now)
    | _, _, _, _ => typeErrorMissing

/-- The `format_event` convenience function: lowercase the kind, look it up
in the formatter table (with alias `"convoy"`), and on a miss fall back to
`format_generic` built from the `title`, `message` and `rig` keywords. -/
def format_event (event_type : Str) (kw : Kw) (now : Str) : FmtResult :=
  let k := event_type.map pyLower
  if k = str "nudge" then callNudge kw now
  else if k = str "broadcast" then callBroadcast kw now
  else if k = str "mail" then callMail kw now
  else if k = str "convoy_update" then callConvoyUpdate kw now
  else if k = str "convoy" then callConvoyUpdate kw now
  else if k = str "escalation" then callEscalation kw now
  else if k = str "handoff" then callHandoff kw now
  else if k = str "completion" then callCompletion kw now
  else Except.ok (format_generic (kw.title.getD (str "Gas Town Event"))
    (kw.message.getD []) .NUDGE none kw.rig none now)

/-- The lowercased kind strings recognized by the `format_event` table. -/
def recognizedKinds : List Str :=
  [str "nudge", str "broadcast", str "mail", str "convoy_update", str "convoy",
   str "escalation", str "handoff", str "completion"]

/-- `r` is a raised exception (`Except.error`). -/
def raised : FmtResult → Bool
  | .error _ => true
  | .ok _ => false

/-! ## Channel manager model (`channel_manager.py`)

A guild is its list of channels; `isText` models
`isinstance(channel, discord.TextChannel)`.  The rig-to-ID mapping is an
insertion-ordered association list, matching Python dict semantics with
unique keys.  Persistence (`_save_mappings`) is modelled by a `savedFile`
component holding the mapping content last written to disk.  Channel creation
takes the fresh id the platform would assign as an explicit argument; the
welcome message sent into a new channel is outside the model. -/

/-- A Discord channel as seen through the guild directory. -/
structure Channel where
  id : Nat
  name : Str
  isText : Bool
deriving DecidableEq

/-- The guild directory. -/
structure Guild where
  channels : List Channel
deriving DecidableEq

/-- `guild.get_channel(id)`. -/
def Guild.get_channel (g : Guild) (cid : Nat) : Option Channel :=
  g.channels.find? fun c => c.id == cid

/-- `guild.text_channels`. -/
def Guild.text_channels (g : Guild) : List Channel :=
  g.channels.filter fun c => c.isText

/-- The rig-name-to-channel-ID mapping (a Python dict). -/
abbrev Mappings := List (Str × Nat)

/-- Dict lookup `m.get(k)` / `m[k]`. -/
def mlookup (m : Mappings) (k : Str) : Option Nat :=
  match m with
  | [] => none
  | (k', v) :: rest => if k' = k then some v else mlookup rest k

/-- Dict assignment `m[k] = v`: update in place or append. -/
def mset (m : Mappings) (k : Str) (v : Nat) : Mappings :=
  match m with
  | [] => [(k, v)]
  | (k', v') :: rest => if k' = k then (k', v) :: rest else (k', v') :: mset rest k v

/-- Dict deletion `del m[k]` (first occurrence). -/
def merase (m : Mappings) (k : Str) : Mappings :=
  match m with
  | [] => []
  | (k', v') :: rest => if k' = k then rest else (k', v') :: merase rest k

/-- The `ChannelManager` state: its in-memory dict and the content last
written to the mappings file by `_save_mappings`. -/
structure ChannelManager where
  mappings : Mappings
  savedFile : Mappings
deriving DecidableEq

/-- `ChannelManager._create_channel`: create a text channel with the
sanitized name (`freshId` is the id Discord assigns), record and persist the
mapping. -/
def _create_channel (cm : ChannelManager) (g : Guild) (rig_name : Str)
    (freshId : Nat) : Channel × ChannelManager × Guild :=
  let channel_name := _sanitize_channel_name rig_name
  let channel : Channel := { id := freshId, name := channel_name, isText := true }
  let g' : Guild := ⟨g.channels ++ [channel]⟩
  let m' := mset cm.mappings rig_name channel.id
  (channel, { mappings := m', savedFile := m' }, g')

/-- Steps 2-3 of `get_or_create_channel`: scan the guild's text channels for
the sanitized name (first match wins), else create. -/
def searchOrCreate (cm : ChannelManager) (g : Guild) (rig_name : Str)
    (freshId : Nat) : Channel × ChannelManager × Guild :=
  let channel_name := _sanitize_channel_name rig_name
  match g.text_channels.find? (fun c => c.name = channel_name) with
  | some ch =>
    let m' := mset cm.mappings rig_name ch.id
    (ch, { mappings := m', savedFile := m' }, g)
  | none => _create_channel cm g rig_name freshId

/-- `ChannelManager.get_or_create_channel`: cached lookup, stale-entry
eviction, name search, create. -/
def get_or_create_channel (cm : ChannelManager) (g : Guild) (rig_name : Str)
    (freshId : Nat) : Channel × ChannelManager × Guild :=
  match mlookup cm.mappings rig_name with
  | some channel_id =>
    match g.get_channel channel_id with
    | some ch =>
      if ch.isText then (ch, cm, g)
      else
        let m' := merase cm.mappings rig_name
        searchOrCreate { mappings := m', savedFile := m' } g rig_name freshId
    | none =>
      let m' := merase cm.mappings rig_name
      searchOrCreate { mappings := m', savedFile := m' } g rig_name freshId
  | none => searchOrCreate cm g rig_name freshId

/-- `ChannelManager.get_channel_id`. -/
def get_channel_id (cm : ChannelManager) (rig_name : Str) : Option Nat :=
  mlookup cm.mappings rig_name

/-- `ChannelManager.delete_channel`. -/
def delete_channel (cm : ChannelManager) (g : Guild) (rig_name : Str) :
    Bool × ChannelManager × Guild :=
  match mlookup cm.mappings rig_name with
  | none => (false, cm, g)
  | some channel_id =>
    let g' : Guild := match g.get_channel channel_id with
      | some _ => ⟨g.channels.eraseP fun c => c.id == channel_id⟩
      | none => g
    let m' := merase cm.mappings rig_name
    (true, { mappings := m', savedFile := m' }, g')

/-! ### Aliasing model for `list_mappings`

`list_mappings` returns `self.mappings.copy()`.  To state that the returned
dict does not alias the manager's internal dict, Python dict objects are
modelled as heap cells addressed by index; `copy()` allocates a fresh cell
with equal content. -/

/-- A heap of dict objects. -/
structure Heap where
  cells : List Mappings

/-- Content of the dict at address `a`. -/
def Heap.get (h : Heap) (a : Nat) : Mappings := h.cells.getD a []

/-- Allocate a new dict object, returning its address. -/
def Heap.alloc (h : Heap) (m : Mappings) : Heap × Nat :=
  (⟨h.cells ++ [m]⟩, h.cells.length)

/-- A `ChannelManager` whose `self.mappings` is the dict at `addr`. -/
structure ChannelManagerRef where
  addr : Nat

/-- `ChannelManager.list_mappings`: `return self.mappings.copy()` — a fresh
dict object with the same content. -/
def list_mappings (h : Heap) (mgr : ChannelManagerRef) : Heap × Nat :=
  h.alloc (h.get mgr.addr)

/-- `get_channel_id` against the heap-resident dict. -/
def get_channel_id_ref (h : Heap) (mgr : ChannelManagerRef) (rig_name : Str) :
    Option Nat :=
  mlookup (h.get mgr.addr) rig_name

/-- Mutate the dict object at address `a`: `d[k] = v`. -/
def dict_set (h : Heap) (a : Nat) (k : Str) (v : Nat) : Heap :=
  ⟨h.cells.set a (mset (h.get a) k v)⟩

theorem pyLower_toNat (c : Char) :
    (pyLower c).toNat =
      if 65 ≤ c.toNat ∧ c.toNat ≤ 90 then c.toNat + 32 else c.toNat := by
  unfold pyLower
  by_cases h : 65 ≤ c.toNat ∧ c.toNat ≤ 90
  · rw [if_pos h, if_pos h]
    exact toNat_ofNat_of_lt (by omega)
  · rw [if_neg h, if_neg h]

theorem pyLower_not_upper (c : Char) :
    ¬ (65 ≤ (pyLower c).toNat ∧ (pyLower c).toNat ≤ 90) := by
  rw [pyLower_toNat]
  split <;> omega

theorem goodChar_of_kept (a : Char)
    (h : (pyIsAlnum (if pyLower a = ' ' then '-' else pyLower a)
          || (if pyLower a = ' ' then '-' else pyLower a) = '-'
          || (if pyLower a = ' ' then '-' else pyLower a) = '_') = true) :
    goodChar (if pyLower a = ' ' then '-' else pyLower a) = true := by
  by_cases hsp : pyLower a = ' '
  · rw [hsp] at h ⊢
    decide
  · rw [if_neg hsp] at h ⊢
    have hup := pyLower_not_upper a
    simp only [pyIsAlnum, goodChar, Bool.or_eq_true, decide_eq_true_eq,
      Bool.and_eq_true] at h ⊢
    rcases h with (((h | h) | h) | h) | h
    · exact Or.inl (Or.inl (Or.inr h))
    · exact absurd h hup
    · exact Or.inl (Or.inl (Or.inl h))
    · exact Or.inl (Or.inr h)
    · exact Or.inr h

theorem sanitize_goodChars (x : Str) :
    ∀ c ∈ _sanitize_channel_name x, goodChar c = true := by
  intro c hc
  unfold _sanitize_channel_name at hc
  simp only [str, List.mem_append] at hc
  rcases hc with hc | hc
  · fin_cases hc <;> decide
  · rw [List.mem_filter] at hc
    obtain ⟨hmem, hpred⟩ := hc
    rw [List.mem_map] at hmem
    obtain ⟨b, hb, rfl⟩ := hmem
    rw [List.mem_map] at hb
    obtain ⟨a, _, rfl⟩ := hb
    exact goodChar_of_kept a hpred

theorem pyLower_fixes_good (c : Char) (h : goodChar c = true) : pyLower c = c := by
  have hnu : ¬ (65 ≤ c.toNat ∧ c.toNat ≤ 90) := by
    simp only [goodChar, Bool.or_eq_true, decide_eq_true_eq, Bool.and_eq_true] at h
    rcases h with ((h | h) | rfl) | rfl
    · omega
    · omega
    · decide
    · decide
  rw [pyLower, if_neg hnu]

theorem good_not_space (c : Char) (h : goodChar c = true) : ¬ (c = ' ') := by
  rintro rfl
  simp [goodChar] at h

theorem good_kept (c : Char) (h : goodChar c = true) :
    (pyIsAlnum c || c = '-' || c = '_') = true := by
  simp only [goodChar, Bool.or_eq_true, decide_eq_true_eq, Bool.and_eq_true] at h
  simp only [pyIsAlnum, Bool.or_eq_true, decide_eq_true_eq, Bool.and_eq_true]
  rcases h with ((h | h) | rfl) | rfl
  · exact Or.inl (Or.inl (Or.inr ⟨by omega, by omega⟩))
  · exact Or.inl (Or.inl (Or.inl (Or.inl ⟨by omega, by omega⟩)))
  · exact Or.inl (Or.inr rfl)
  · exact Or.inr rfl

theorem sanitize_fixed_of_good (s : Str) (h : ∀ c ∈ s, goodChar c = true) :
    _sanitize_channel_name s = str "gt-" ++ s := by
  have h1 : s.map pyLower = s :=
    (List.map_congr_left fun c hc => pyLower_fixes_good c (h c hc)).trans
      (List.map_id' s)
  have h2 : s.map (fun c => if c = ' ' then '-' else c) = s :=
    (List.map_congr_left fun c hc => if_neg (good_not_space c (h c hc))).trans
      (List.map_id' s)
  have h3 : s.filter (fun c => pyIsAlnum c || c = '-' || c = '_') = s :=
    List.filter_eq_self.mpr fun c hc => good_kept c (h c hc)
  show str "gt-" ++ ((s.map pyLower).map (fun c => if c = ' ' then '-' else c)).filter
      (fun c => pyIsAlnum c || c = '-' || c = '_') = str "gt-" ++ s
  rw [h1, h2, h3]

theorem sanitize_squared (x : Str) :
    _sanitize_channel_name (_sanitize_channel_name x) =
      str "gt-" ++ _sanitize_channel_name x :=
  sanitize_fixed_of_good _ (sanitize_goodChars x)

theorem matches_of_good (name : Str) (h : ∀ c ∈ name, goodChar c = true) :
    matchesChannelPattern (str "gt-" ++ name) = true := by
  unfold matchesChannelPattern
  have h3 : (3 : Nat) = (str "gt-").length := by decide
  rw [h3, List.take_left, List.drop_left]
  simpa using h

theorem sanitize_decomp (x : Str) :
    ∃ name, _sanitize_channel_name x = str "gt-" ++ name ∧
      ∀ c ∈ name, goodChar c = true := by
  refine ⟨((x.map pyLower).map (fun c => if c = ' ' then '-' else c)).filter
      (fun c => pyIsAlnum c || c = '-' || c = '_'), rfl, fun c hc => ?_⟩
  exact sanitize_goodChars x c (List.mem_append_right _ hc)

theorem sanitize_matches_pattern (x : Str) :
    matchesChannelPattern (_sanitize_channel_name x) = true := by
  obtain ⟨name, he, hg⟩ := sanitize_decomp x
  rw [he]
  exact matches_of_good name hg

/-- C1 counterexample: sanitization is not idempotent — sanitizing
`"x"` gives `"gt-x"`, and sanitizing that again gives `"gt-gt-x"`. -/
theorem C1_sanitize_not_idempotent :
    _sanitize_channel_name (_sanitize_channel_name (str "x")) ≠
      _sanitize_channel_name (str "x") := by decide

/-- C1 (amended): sanitization is not idempotent; instead, re-sanitizing a
sanitized name prepends another `gt-` prefix: for every ASCII input,
`sanitize (sanitize x) = "gt-" ++ sanitize x`, and the output of
sanitization matches `^gt-[a-z0-9_-]*$`.  The ASCII hypothesis marks the
range on which `pyLower`/`pyIsAlnum` coincide with Python's Unicode-aware
`str.lower`/`str.isalnum`: outside it the program itself breaks the pattern
conjunct (Python keeps non-ASCII alphanumerics, so its
`sanitize("é") = "gt-é"` does not match `^gt-[a-z0-9_-]*$`), so the pattern
guarantee cannot extend past ASCII. -/
theorem C1_sanitize_amended (x : Str) (hascii : ∀ c ∈ x, c.toNat ≤ 127) :
    _sanitize_channel_name (_sanitize_channel_name x) =
        str "gt-" ++ _sanitize_channel_name x ∧
      matchesChannelPattern (_sanitize_channel_name x) = true :=
  ⟨sanitize_squared x, sanitize_matches_pattern x⟩

/-- Closed instance of `C1_sanitize_amended` at the ASCII input "My Rig 1!". -/
theorem C1_sanitize_amended_witness :
    _sanitize_channel_name (_sanitize_channel_name (str "My Rig 1!")) =
        str "gt-" ++ _sanitize_channel_name (str "My Rig 1!") ∧
      matchesChannelPattern (_sanitize_channel_name (str "My Rig 1!")) = true :=
  C1_sanitize_amended (str "My Rig 1!") (by decide)

/-! ## C2: description truncation -/

theorem format_mail_description (fa ta su m : Str) (mi pr ts : Option Str) (now : Str) :
    (format_mail fa ta su m mi pr ts now).description =
      if m.length > 4096 then m.take 4096 else m := rfl

theorem format_escalation_description (fa i sv d : Str) (bi rig ts : Option Str) (now : Str) :
    (format_escalation fa i sv d bi rig ts now).description =
      if d.length > 4096 then d.take 4096 else d := rfl

theorem format_handoff_description (fa su m : Str) (hw rig ts : Option Str) (now : Str) :
    (format_handoff fa su m hw rig ts now).description =
      if m.length > 4096 then m.take 4096 else m := rfl

theorem trunc_of_long (m : Str) (h : 4096 < m.length) :
    (if m.length > 4096 then m.take 4096 else m) = m.take 4096 := if_pos h

theorem take_length_of_long (m : Str) (h : 4096 < m.length) :
    (m.take 4096).length = 4096 := by
  rw [List.length_take]
  omega

/-- C2 counterexample: the nudge formatter does not truncate its
description — a 4097-character message yields a 4097-character
description. -/
theorem C2_nudge_description_not_truncated :
    ¬ ((format_nudge [] [] (List.replicate 4097 'a') none none []).description.length
        ≤ 4096) := by
  show ¬ ((List.replicate 4097 'a').length ≤ 4096)
  rw [List.length_replicate]
  omega

/-- C2 (amended): only Mail, Escalation and Handoff truncate the description
at 4096 characters — for those three, an input longer than 4096 characters
yields exactly its first 4096 characters (so length exactly 4096); every
other kind (Nudge, Broadcast, ConvoyUpdate, Completion, Generic) copies the
description input verbatim, however long. -/
theorem C2_truncation_amended (m fa ta su i sv ci cn st ag bi bt ti : Str)
    (mi pr rig ts hw : Option Str) (co tot : Option Nat) (et : EventType)
    (fs : Option (List EField)) (now : Str) (h : 4096 < m.length) :
    (format_mail fa ta su m mi pr ts now).description = m.take 4096 ∧
    (format_mail fa ta su m mi pr ts now).description.length = 4096 ∧
    (format_escalation fa i sv m mi rig ts now).description = m.take 4096 ∧
    (format_escalation fa i sv m mi rig ts now).description.length = 4096 ∧
    (format_handoff fa su m hw rig ts now).description = m.take 4096 ∧
    (format_handoff fa su m hw rig ts now).description.length = 4096 ∧
    (format_nudge fa ta m rig ts now).description = m ∧
    (format_broadcast fa m rig st ts now).description = m ∧
    (format_convoy_update ci cn st m co tot rig ts now).description = m ∧
    (format_completion ag bi bt m rig ts now).description = m ∧
    (format_generic ti m et fs rig ts now).description = m := by
  have hm := trunc_of_long m h
  have hl := take_length_of_long m h
  refine ⟨?_, ?_, ?_, ?_, ?_, ?_, rfl, rfl, rfl, rfl, rfl⟩
  · rw [format_mail_description, hm]
  · rw [format_mail_description, hm, hl]
  · rw [format_escalation_description, hm]
  · rw [format_escalation_description, hm, hl]
  · rw [format_handoff_description, hm]
  · rw [format_handoff_description, hm, hl]

/-- Closed instance of `C2_truncation_amended` at a 4097-character message. -/
theorem C2_truncation_amended_witness :
    (format_mail (str "a") (str "b") (str "s") (List.replicate 4097 'x')
        none none none []).description = List.replicate 4096 'x' := by
  have h := (C2_truncation_amended (List.replicate 4097 'x') (str "a") (str "b")
    (str "s") [] [] [] [] [] [] [] [] [] none none none none none none none
    .NUDGE none [] (by rw [List.length_replicate]; omega)).1
  have hmin : (4096 : Nat) ⊓ 4097 = 4096 := by omega
  rw [h, List.take_replicate, hmin]

/-! ## C3: footers -/

theorem format_nudge_footer (fa ta m : Str) (rig ts : Option Str) (now : Str) :
    (format_nudge fa ta m rig ts now).footer = some (rigFooter rig (str "Gas Town")) := rfl

theorem format_broadcast_footer (fa m : Str) (rig : Option Str) (sc : Str)
    (ts : Option Str) (now : Str) :
    (format_broadcast fa m rig sc ts now).footer =
      some (rigFooter rig (str "Town-wide")) := rfl

theorem format_convoy_update_footer (ci cn st m : Str) (co tot : Option Nat)
    (rig ts : Option Str) (now : Str) :
    (format_convoy_update ci cn st m co tot rig ts now).footer =
      some (rigFooter rig (str "Gas Town")) := rfl

theorem format_escalation_footer (fa i sv d : Str) (bi rig ts : Option Str) (now : Str) :
    (format_escalation fa i sv d bi rig ts now).footer =
      some (rigFooter rig (str "Gas Town")) := rfl

theorem format_handoff_footer (fa su m : Str) (hw rig ts : Option Str) (now : Str) :
    (format_handoff fa su m hw rig ts now).footer =
      some (rigFooter rig (str "Gas Town")) := rfl

theorem format_completion_footer (ag bi bt su : Str) (rig ts : Option Str) (now : Str) :
    (format_completion ag bi bt su rig ts now).footer =
      some (rigFooter rig (str "Gas Town")) := rfl

theorem format_mail_footer (fa ta su m : Str) (mi pr ts : Option Str) (now : Str) :
    (format_mail fa ta su m mi pr ts now).footer = none := rfl

theorem rigFooter_of_ne_nil (r : Str) (hr : r ≠ []) (d : Str) :
    rigFooter (some r) d = ⟨str "Rig: " ++ r⟩ := by
  unfold rigFooter truthy
  simp [hr]

theorem rigFooter_none (d : Str) : rigFooter none d = ⟨d⟩ := rfl

/-- C3 counterexample: the generic formatter invoked without a rig has no
footer at all, not a default-text footer. -/
theorem C3_generic_footer_missing :
    (format_generic (str "Title") (str "msg") .NUDGE none none none []).footer =
      none := rfl

/-- C3 (amended): the Nudge, Broadcast, ConvoyUpdate, Escalation, Handoff and
Completion formatters set footer text to Rig-colon-rig when a non-empty rig
is supplied and otherwise to the kind default ("Gas Town", or "Town-wide" for
Broadcast); the Generic formatter sets the rig footer only when a non-empty
rig is supplied and has no footer otherwise; Mail never has a footer. -/
theorem C3_footer_amended (fa ta m su i sv d ci cn st ag bi bt sc ti r : Str)
    (mi hw ts : Option Str) (co tot : Option Nat) (et : EventType)
    (fs : Option (List EField)) (now : Str) (hr : r ≠ []) :
    (format_nudge fa ta m (some r) ts now).footer = some ⟨str "Rig: " ++ r⟩ ∧
    (format_broadcast fa m (some r) sc ts now).footer = some ⟨str "Rig: " ++ r⟩ ∧
    (format_convoy_update ci cn st m co tot (some r) ts now).footer =
      some ⟨str "Rig: " ++ r⟩ ∧
    (format_escalation fa i sv d mi (some r) ts now).footer = some ⟨str "Rig: " ++ r⟩ ∧
    (format_handoff fa su m hw (some r) ts now).footer = some ⟨str "Rig: " ++ r⟩ ∧
    (format_completion ag bi bt su (some r) ts now).footer = some ⟨str "Rig: " ++ r⟩ ∧
    (format_generic ti m et fs (some r) ts now).footer = some ⟨str "Rig: " ++ r⟩ ∧
    (format_nudge fa ta m none ts now).footer = some ⟨str "Gas Town"⟩ ∧
    (format_broadcast fa m none sc ts now).footer = some ⟨str "Town-wide"⟩ ∧
    (format_convoy_update ci cn st m co tot none ts now).footer =
      some ⟨str "Gas Town"⟩ ∧
    (format_escalation fa i sv d mi none ts now).footer = some ⟨str "Gas Town"⟩ ∧
    (format_handoff fa su m hw none ts now).footer = some ⟨str "Gas Town"⟩ ∧
    (format_completion ag bi bt su none ts now).footer = some ⟨str "Gas Town"⟩ ∧
    (format_generic ti m et fs none ts now).footer = none ∧
    (format_mail fa ta su m mi mi ts now).footer = none := by
  have hs := rigFooter_of_ne_nil r hr
  refine ⟨?_, ?_, ?_, ?_, ?_, ?_, ?_, rfl, rfl, rfl, rfl, rfl, rfl, rfl, rfl⟩
  · rw [format_nudge_footer, hs]
  · rw [format_broadcast_footer, hs]
  · rw [format_convoy_update_footer, hs]
  · rw [format_escalation_footer, hs]
  · rw [format_handoff_footer, hs]
  · rw [format_completion_footer, hs]
  · unfold format_generic truthy
    simp [hr]

/-- Closed instance of `C3_footer_amended` at concrete inputs. -/
theorem C3_footer_amended_witness :
    (format_nudge (str "a") (str "b") (str "hi") (some (str "rig1")) none []).footer =
      some ⟨str "Rig: rig1"⟩ := by
  have h := (C3_footer_amended (str "a") (str "b") (str "hi") [] [] [] [] [] []
    [] [] [] [] [] [] (str "rig1") none none none none none .NUDGE none []
    (by decide)).1
  rw [h]
  rfl

/-! ## C4: mail does not accept a rig keyword -/

/-- C4 counterexample: dispatching kind "mail" with all four required mail
fields plus a `rig` keyword raises `TypeError` (`format_mail` has no `rig`
parameter) instead of returning an embed. -/
theorem C4_mail_rig_rejected :
    format_event (str "mail")
      { from_agent := some (str "a"), to_agent := some (str "b"),
        subject := some (str "s"), message := some (str "m"),
        rig := some (str "r") } [] = typeErrorUnexpected := by rfl

/-- C4 (amended): `format_mail` accepts `mail_id`, `priority` and `timestamp`
as optional keywords but not `rig`: any "mail" dispatch whose kwargs contain
`rig` raises `TypeError`, while a "mail" dispatch carrying only mail
parameters succeeds and returns the mail embed. -/
theorem C4_mail_rig_amended (kw : Kw) (now : Str) (r : Str) (hr : kw.rig = some r)
    (fa ta su m : Str) (mi pr ts : Option Str) :
    raised (format_event (str "mail") kw now) = true ∧
    format_event (str "mail")
      { from_agent := some fa, to_agent := some ta, subject := some su,
        message := some m, mail_id := mi, priority := pr, timestamp := ts } now =
      Except.ok (format_mail fa ta su m mi pr ts now) := by
  constructor
  · show raised (callMail kw now) = true
    have hbad : kw.hasBadKey ["from_agent", "to_agent", "subject", "message",
        "mail_id", "priority", "timestamp"] = true := by
      apply List.any_eq_true.mpr
      refine ⟨"rig", by decide, ?_⟩
      show (true && kw.rig.isSome) = true
      rw [hr]
      rfl
    unfold callMail
    rw [if_pos hbad]
    rfl
  · rfl

/-- Closed instance of `C4_mail_rig_amended` at concrete inputs. -/
theorem C4_mail_rig_amended_witness :
    format_event (str "mail")
      { from_agent := some (str "a"), to_agent := some (str "b"),
        subject := some (str "s"), message := some (str "m"),
        mail_id := some (str "id1") } [] =
      Except.ok (format_mail (str "a") (str "b") (str "s") (str "m")
        (some (str "id1")) none none []) :=
  (C4_mail_rig_amended { rig := some (str "r") } [] (str "r") rfl (str "a")
    (str "b") (str "s") (str "m") (some (str "id1")) none none).2

/-! ## C6: convoy progress arithmetic -/

/-- C6: the documented example `completed=2, total=5` does give percentage
40, a bar with 4 of 10 cells filled, and a Progress value containing
"2/5 (40%)", and `total=0` gives percentage 0 with no fault; but the
percentage is computed with binary64 floats, so at `completed=29, total=100`
the code produces 28 while `floor(completed/total*100) = 29` — the general
floor claim is exactly what the float evaluation breaks. -/
theorem C6_convoy_progress :
    pyPercentage 2 5 = 40 ∧
    _create_progress_bar 40 = str "[████░░░░░░]" ∧
    (format_convoy_update (str "c-1") (str "n") (str "ok") [] (some 2) (some 5)
        none none []).fields =
      some [⟨str "Convoy ID", tick (str "c-1"), true⟩,
        ⟨str "Status", str "ok", true⟩,
        ⟨str "Progress", str "[████░░░░░░] 2/5 (40%)", false⟩] ∧
    pyPercentage 7 0 = 0 ∧
    pyPercentage 29 100 = 28 ∧
    (29 * 100) / 100 = 29 := by decide

/-! ## C7: unknown kinds degrade to the generic formatter -/

/-- C7: for every kind string whose lowercasing is not in the dispatch table,
`format_event` returns (never raises) the generic embed built from the
`title`, `message` and `rig` keywords, with `title` defaulting to
"Gas Town Event" and `message` to the empty string; and the alias "convoy"
dispatches exactly as "convoy_update". -/
theorem C7_unknown_kind_generic (kind : Str) (kw : Kw) (now : Str)
    (h : kind.map pyLower ∉ recognizedKinds) :
    format_event kind kw now =
      Except.ok (format_generic (kw.title.getD (str "Gas Town Event"))
        (kw.message.getD []) .NUDGE none kw.rig none now) ∧
    format_event (str "convoy") kw now = format_event (str "convoy_update") kw now := by
  refine ⟨?_, rfl⟩
  simp only [recognizedKinds, List.mem_cons, List.mem_singleton, not_or] at h
  obtain ⟨h1, h2, h3, h4, h5, h6, h7, h8, -⟩ := h
  simp only [format_event]
  rw [if_neg h1, if_neg h2, if_neg h3, if_neg h4, if_neg h5, if_neg h6, if_neg h7,
    if_neg h8]

/-- Closed instance of `C7_unknown_kind_generic` at the kind "frobnicate"
with no keywords supplied. -/
theorem C7_unknown_kind_generic_witness :
    format_event (str "frobnicate") {} [] =
      Except.ok (format_generic (str "Gas Town Event") [] .NUDGE none none none []) :=
  (C7_unknown_kind_generic (str "frobnicate") {} [] (by decide)).1

/-! ## C10: recognized kinds forward their kwargs and can raise -/

/-- C10: a recognized kind is bound directly to its formatter: kind "nudge"
with the required `message` keyword missing raises `TypeError` (it does not
degrade to the generic formatter and does not return an embed), while a
"nudge" dispatch with its parameters present forwards them to `format_nudge`
unchanged. -/
theorem C10_required_missing_raises (kw : Kw) (now : Str) (hmsg : kw.message = none)
    (fa ta m su sc ci cn st i sv d ag bi bt : Str)
    (rig ts mi pr hw bo : Option Str) (co tot : Option Nat) :
    raised (format_event (str "nudge") kw now) = true ∧
    format_event (str "nudge")
      { from_agent := some fa, to_agent := some ta, message := some m,
        rig := rig, timestamp := ts } now =
      Except.ok (format_nudge fa ta m rig ts now) ∧
    format_event (str "broadcast")
      { from_agent := some fa, message := some m, rig := rig,
        target_scope := some sc, timestamp := ts } now =
      Except.ok (format_broadcast fa m rig sc ts now) ∧
    format_event (str "mail")
      { from_agent := some fa, to_agent := some ta, subject := some su,
        message := some m, mail_id := mi, priority := pr, timestamp := ts } now =
      Except.ok (format_mail fa ta su m mi pr ts now) ∧
    format_event (str "convoy_update")
      { convoy_id := some ci, convoy_name := some cn, status := some st,
        message := some m, completed := co, total := tot, rig := rig,
        timestamp := ts } now =
      Except.ok (format_convoy_update ci cn st m co tot rig ts now) ∧
    format_event (str "convoy")
      { convoy_id := some ci, convoy_name := some cn, status := some st,
        message := some m, completed := co, total := tot, rig := rig,
        timestamp := ts } now =
      Except.ok (format_convoy_update ci cn st m co tot rig ts now) ∧
    format_event (str "escalation")
      { from_agent := some fa, issue := some i, severity := some sv,
        details := some d, bead_id := bo, rig := rig, timestamp := ts } now =
      Except.ok (format_escalation fa i sv d bo rig ts now) ∧
    format_event (str "handoff")
      { from_agent := some fa, subject := some su, message := some m,
        hooked_work := hw, rig := rig, timestamp := ts } now =
      Except.ok (format_handoff fa su m hw rig ts now) ∧
    format_event (str "completion")
      { agent := some ag, bead_id := some bi, bead_title := some bt,
        summary := some su, rig := rig, timestamp := ts } now =
      Except.ok (format_completion ag bi bt su rig ts now) := by
  refine ⟨?_, rfl, rfl, rfl, rfl, rfl, rfl, rfl, rfl⟩
  show raised (callNudge kw now) = true
  unfold callNudge
  split
  · rfl
  · rw [hmsg]
    cases kw.from_agent <;> cases kw.to_agent <;> rfl

/-- Closed instance of `C10_required_missing_raises`: kind "nudge" with no
kwargs raises. -/
theorem C10_required_missing_raises_witness :
    raised (format_event (str "nudge") {} []) = true :=
  (C10_required_missing_raises {} [] rfl [] [] [] [] [] [] [] [] [] [] [] []
    [] [] none none none none none none none none).1

/-! ## C5: stale cached mappings are evicted -/

theorem searchOrCreate_saved (cm : ChannelManager) (g : Guild) (rig : Str) (fid : Nat) :
    (searchOrCreate cm g rig fid).2.1.savedFile =
      (searchOrCreate cm g rig fid).2.1.mappings := by
  simp only [searchOrCreate, _create_channel]
  split <;> rfl

theorem searchOrCreate_isText (cm : ChannelManager) (g : Guild) (rig : Str) (fid : Nat) :
    (searchOrCreate cm g rig fid).1.isText = true := by
  simp only [searchOrCreate, _create_channel]
  split
  · next ch hf => exact (List.mem_filter.mp (List.mem_of_find?_eq_some hf)).2
  · rfl

theorem searchOrCreate_id_ne (cm : ChannelManager) (g : Guild) (rig : Str)
    (fid cid : Nat) (htext : ∀ tc ∈ g.text_channels, tc.id ≠ cid)
    (hfcid : fid ≠ cid) :
    (searchOrCreate cm g rig fid).1.id ≠ cid := by
  simp only [searchOrCreate, _create_channel]
  split
  · next ch hf => exact htext ch (List.mem_of_find?_eq_some hf)
  · exact hfcid

/-- C5: when the cached mapping for a rig points at a channel id that the
guild directory does not resolve to a text channel (absent, or a non-text
channel), `get_or_create_channel` evicts the entry, persists, and proceeds
with name search then creation: its result is exactly the search-or-create
run from the evicted, persisted state, the final state is persisted, and the
returned channel is a text channel whose id is not the stale id.
(`hnodup` says guild channel ids are unique; `hfcid` says the fresh id a
creation would use is not the stale id.) -/
theorem C5_stale_mapping_evicted (cm : ChannelManager) (g : Guild) (rig : Str)
    (freshId cid : Nat) (hmap : mlookup cm.mappings rig = some cid)
    (hstale : g.get_channel cid = none ∨
      ∃ ch, g.get_channel cid = some ch ∧ ch.isText = false)
    (hnodup : (g.channels.map Channel.id).Nodup) (hfcid : freshId ≠ cid) :
    get_or_create_channel cm g rig freshId =
      searchOrCreate ⟨merase cm.mappings rig, merase cm.mappings rig⟩ g rig freshId ∧
    (get_or_create_channel cm g rig freshId).1.id ≠ cid ∧
    (get_or_create_channel cm g rig freshId).1.isText = true ∧
    (get_or_create_channel cm g rig freshId).2.1.savedFile =
      (get_or_create_channel cm g rig freshId).2.1.mappings := by
  have step1 : get_or_create_channel cm g rig freshId =
      (match g.get_channel cid with
        | some ch =>
          if ch.isText then (ch, cm, g)
          else searchOrCreate ⟨merase cm.mappings rig, merase cm.mappings rig⟩
            g rig freshId
        | none =>
          searchOrCreate ⟨merase cm.mappings rig, merase cm.mappings rig⟩
            g rig freshId) := by
    unfold get_or_create_channel
    rw [hmap]
  have hmain : get_or_create_channel cm g rig freshId =
      searchOrCreate ⟨merase cm.mappings rig, merase cm.mappings rig⟩ g rig freshId := by
    rcases hstale with hnone | ⟨ch, hch, hft⟩
    · rw [step1, hnone]
    · rw [step1, hch]
      simp [hft]
  have htext : ∀ tc ∈ g.text_channels, tc.id ≠ cid := by
    rcases hstale with hnone | ⟨ch, hch, hft⟩
    · intro tc htc heq
      have h1 := List.find?_eq_none.mp hnone tc (List.mem_filter.mp htc).1
      exact h1 (by simp [heq])
    · intro tc htc heq
      have hchid : ch.id = cid := by simpa using List.find?_some hch
      have htcmem := (List.mem_filter.mp htc).1
      have htctext := (List.mem_filter.mp htc).2
      have heq2 : tc = ch := List.inj_on_of_nodup_map hnodup htcmem
        (List.mem_of_find?_eq_some hch) (by rw [heq, hchid])
      rw [heq2, hft] at htctext
      exact Bool.false_ne_true htctext
  refine ⟨hmain, ?_, ?_, ?_⟩
  · rw [hmain]
    exact searchOrCreate_id_ne _ _ _ _ _ htext hfcid
  · rw [hmain]
    exact searchOrCreate_isText _ _ _ _
  · rw [hmain]
    exact searchOrCreate_saved _ _ _ _

/-- Closed instance of `C5_stale_mapping_evicted`: rig "r" cached at the
absent id 5 resolves to the existing text channel `gt-r` with id 7. -/
theorem C5_stale_mapping_evicted_witness :
    (get_or_create_channel ⟨[(str "r", 5)], [(str "r", 5)]⟩
      ⟨[⟨7, str "gt-r", true⟩]⟩ (str "r") 9).1.id ≠ 5 :=
  (C5_stale_mapping_evicted ⟨[(str "r", 5)], [(str "r", 5)]⟩
    ⟨[⟨7, str "gt-r", true⟩]⟩ (str "r") 9 5 (by decide)
    (Or.inl (by decide)) (by decide) (by decide)).2.1

/-! ## C8: delete_channel -/

/-- C8: with no mapping for the rig, `delete_channel` returns `false` and
changes neither the manager state nor the guild; with a mapping to `cid` it
returns `true`, removes the entry, persists the new mapping, and erases the
channel from the guild exactly when the directory still contains a channel
with that id (its absence is not an error). -/
theorem C8_delete_channel (cm : ChannelManager) (g : Guild) (rig : Str) (cid : Nat) :
    (mlookup cm.mappings rig = none → delete_channel cm g rig = (false, cm, g)) ∧
    (mlookup cm.mappings rig = some cid →
      (delete_channel cm g rig).1 = true ∧
      (delete_channel cm g rig).2.1.mappings = merase cm.mappings rig ∧
      (delete_channel cm g rig).2.1.savedFile = merase cm.mappings rig ∧
      (delete_channel cm g rig).2.2 =
        (match g.get_channel cid with
          | some _ => ⟨g.channels.eraseP fun c => c.id == cid⟩
          | none => g)) := by
  constructor
  · intro h
    unfold delete_channel
    rw [h]
  · intro h
    unfold delete_channel
    rw [h]
    exact ⟨rfl, rfl, rfl, rfl⟩

/-- Closed instance of `C8_delete_channel`, both branches. -/
theorem C8_delete_channel_witness :
    delete_channel ⟨[], []⟩ ⟨[]⟩ (str "r") = (false, ⟨[], []⟩, ⟨[]⟩) ∧
    (delete_channel ⟨[(str "r", 5)], [(str "r", 5)]⟩
      ⟨[⟨5, str "gt-r", true⟩]⟩ (str "r")).1 = true :=
  ⟨(C8_delete_channel ⟨[], []⟩ ⟨[]⟩ (str "r") 0).1 rfl,
    ((C8_delete_channel ⟨[(str "r", 5)], [(str "r", 5)]⟩
      ⟨[⟨5, str "gt-r", true⟩]⟩ (str "r") 5).2 (by decide)).1⟩

/-! ## C9: list_mappings returns a non-aliasing copy -/

/-- C9: `list_mappings` allocates a fresh dict whose content equals the
manager's mapping, leaves the manager's own dict untouched, returns an
address different from the manager's, and mutating the returned dict changes
neither the manager's dict content nor any later `get_channel_id`. -/
theorem C9_list_mappings (h : Heap) (mgr : ChannelManagerRef) (rig k : Str)
    (v : Nat) (hv : mgr.addr < h.cells.length) :
    (list_mappings h mgr).1.get (list_mappings h mgr).2 = h.get mgr.addr ∧
    (list_mappings h mgr).1.get mgr.addr = h.get mgr.addr ∧
    (list_mappings h mgr).2 ≠ mgr.addr ∧
    (dict_set (list_mappings h mgr).1 (list_mappings h mgr).2 k v).get mgr.addr =
      h.get mgr.addr ∧
    get_channel_id_ref (dict_set (list_mappings h mgr).1 (list_mappings h mgr).2 k v)
        mgr rig = get_channel_id_ref h mgr rig := by
  have hne : h.cells.length ≠ mgr.addr := by omega
  have h4 : (dict_set (list_mappings h mgr).1 (list_mappings h mgr).2 k v).get
      mgr.addr = h.get mgr.addr := by
    show (((h.cells ++ [h.get mgr.addr]).set h.cells.length _).getD mgr.addr []) =
      h.cells.getD mgr.addr []
    rw [List.getD_eq_getElem?_getD, List.getD_eq_getElem?_getD,
      List.getElem?_set_ne hne, List.getElem?_append_left hv]
  refine ⟨?_, ?_, hne, h4, ?_⟩
  · show ((h.cells ++ [h.get mgr.addr]).getD h.cells.length []) = h.cells.getD mgr.addr []
    rw [List.getD_eq_getElem?_getD, List.getElem?_append_right (Nat.le_refl _),
      Nat.sub_self]
    rfl
  · show ((h.cells ++ [h.get mgr.addr]).getD mgr.addr []) = h.cells.getD mgr.addr []
    rw [List.getD_eq_getElem?_getD, List.getD_eq_getElem?_getD,
      List.getElem?_append_left hv]
  · unfold get_channel_id_ref
    rw [h4]

/-- Closed instance of `C9_list_mappings` on a one-cell heap. -/
theorem C9_list_mappings_witness :
    get_channel_id_ref
      (dict_set (list_mappings ⟨[[(str "r", 5)]]⟩ ⟨0⟩).1
        (list_mappings ⟨[[(str "r", 5)]]⟩ ⟨0⟩).2 (str "r") 99)
      ⟨0⟩ (str "r") = get_channel_id_ref ⟨[[(str "r", 5)]]⟩ ⟨0⟩ (str "r") :=
  (C9_list_mappings ⟨[[(str "r", 5)]]⟩ ⟨0⟩ (str "r") (str "r") 99 (by decide)).2.2.2.2

end GasTown
